import Mathlib

/-!
Verification of the incremental-disclosure extraction core of
src/modules/linked/src/user-profile-module.ts (class UserProfileModule).

The pure text-processing kernels (dash splitting, integer parsing, the
certification date regular expression, the endorser username rewrite) are
embedded as executable functions over lists of characters, mirroring the
JavaScript string operations the source uses.  The effectful methods are
embedded as functions of an explicit surface record: every result the
Playwright page or a helper can deliver (a text, an attribute value, a
resolved or rejected wait) is a field of the record, and thrown errors are
the error side of an Except value.
-/

namespace UserProfileModule

/-- JavaScript errors as they matter to the control flow of the module:
Playwright timeout errors (the only kind the about() accessor treats
specially), TypeError from dereferencing undefined (the non-null
assertions in the source), and any other surface error such as a
navigation failure or a detached context. -/
inductive JsError where
  | timeout
  | typeError
  | fatal (msg : String)
deriving DecidableEq, Repr

/-- Character class \s of the source regular expressions and the
whitespace set of String.prototype.trim, restricted to the ASCII
whitespace that occurs in scraped profile text. -/
def wsP (c : Char) : Bool := c.isWhitespace

/-- Character class [0-9], the JavaScript \d. -/
def digitP (c : Char) : Bool := c.isDigit

/-- Character class [^\d]. -/
def notDigitP (c : Char) : Bool := !c.isDigit

/-- String.prototype.trim on a list of characters: drop whitespace from
both ends. -/
def trimCh (l : List Char) : List Char :=
  ((l.dropWhile wsP).reverse.dropWhile wsP).reverse

/-- String.prototype.trim. -/
def jsTrim (s : String) : String := String.mk (trimCh s.toList)

/-- String.prototype.split(sep) on a list of characters: every occurrence
of the separator splits, empty parts are kept, the empty string yields one
empty part. -/
def splitCh (sep : Char) : List Char → List (List Char)
  | [] => [[]]
  | c :: cs =>
    if c = sep then [] :: splitCh sep cs
    else
      match splitCh sep cs with
      | [] => [[c]]
      | p :: ps => (c :: p) :: ps

/-- parseInt(s, 10) on a list of characters: skip leading whitespace, an
optional sign, then the maximal digit prefix; none models NaN when no
digit is found. -/
def jsParseIntCh (l : List Char) : Option Int :=
  let l := l.dropWhile wsP
  match l with
  | [] => none
  | c :: rest =>
    let signDigits : Bool × List Char :=
      if c = '-' then (true, rest)
      else if c = '+' then (false, rest)
      else (false, c :: rest)
    let ds := signDigits.2.takeWhile digitP
    if ds = [] then none
    else
      let n : Nat := ds.foldl (fun acc d => acc * 10 + (d.toNat - 48)) 0
      some (if signDigits.1 then -(n : Int) else (n : Int))

/-- parseInt(s, 10); none models NaN. -/
def jsParseInt (s : String) : Option Int := jsParseIntCh s.toList

/-- Modelled from the spec: the source imports splitDashes from
./helpers/string-helpers, whose file is not part of the repository
snapshot.  The spec dash-split rule reads: split an interval string on a
dash character; if exactly two non-empty parts result, they are start and
end; if one part results, it is both start and end.  The two-versus-one
arity choice is made by the callers in the source, so the helper itself
splits on the dash character and keeps the non-empty parts. -/
def splitDashes (s : String) : List String :=
  ((splitCh '-' s.toList).filter (· ≠ [])).map String.mk

end UserProfileModule

namespace JsRegex

/-- A regular-expression item of the two patterns the source matches
against scraped text: a literal (with a case-insensitivity flag for the
/i patterns), a greedy star or plus over a character class, a numbered
capturing group over a sequence, and a greedy optional sequence. -/
inductive RItem where
  | lit : Bool → List Char → RItem
  | star : (Char → Bool) → RItem
  | plus : (Char → Bool) → RItem
  | group : Nat → List RItem → RItem
  | opt : List RItem → RItem

/-- Captures of a match attempt: group number paired with captured text. -/
abbrev Caps := List (Nat × List Char)

/-- Case folding used for the /i flag on the ASCII literals of the
source patterns. -/
def charEq (ci : Bool) (p c : Char) : Bool :=
  if ci then p.toLower = c.toLower else p = c

/-- Match a literal against the front of the input, returning the rest. -/
def litMatch (ci : Bool) : List Char → List Char → Option (List Char)
  | [], cs => some cs
  | _ :: _, [] => none
  | p :: ps, c :: cs => if charEq ci p c then litMatch ci ps cs else none

/-- Suffixes of the input reachable by a greedy star over the class p,
longest consumption first: the backtracking order of the quantifier. -/
def starSuffixes (p : Char → Bool) : List Char → List (List Char)
  | [] => [[]]
  | c :: cs => if p c then starSuffixes p cs ++ [c :: cs] else [c :: cs]

/-- Suffixes reachable by a greedy plus (at least one character),
longest consumption first. -/
def plusSuffixes (p : Char → Bool) : List Char → List (List Char)
  | [] => []
  | c :: cs => if p c then starSuffixes p cs else []

mutual

/-- Backtracking matcher for one item, in continuation-passing style:
the continuation receives the remaining input and the captures collected
so far, and the first alternative it accepts wins, reproducing the
greedy, ordered backtracking of the JavaScript engine. -/
def mItem {α : Type} : RItem → List Char → Caps →
    (List Char → Caps → Option α) → Option α
  | .lit ci p, cs, caps, k =>
    match litMatch ci p cs with
    | some rest => k rest caps
    | none => none
  | .star p, cs, caps, k => (starSuffixes p cs).findSome? (fun rest => k rest caps)
  | .plus p, cs, caps, k => (plusSuffixes p cs).findSome? (fun rest => k rest caps)
  | .group n rs, cs, caps, k =>
    mSeq rs cs caps (fun rest caps' =>
      k rest ((n, cs.take (cs.length - rest.length)) :: caps'))
  | .opt rs, cs, caps, k =>
    match mSeq rs cs caps k with
    | some r => some r
    | none => k cs caps

/-- Backtracking matcher for a sequence of items. -/
def mSeq {α : Type} : List RItem → List Char → Caps →
    (List Char → Caps → Option α) → Option α
  | [], cs, caps, k => k cs caps
  | r :: rs, cs, caps, k => mItem r cs caps (fun cs' caps' => mSeq rs cs' caps' k)

end

/-- String.prototype.match for an unanchored pattern: try each start
position from the left and return the captures of the first position
where the pattern matches, as the JavaScript engine does. -/
def scanCaps (re : List RItem) : List Char → Option Caps
  | [] => mSeq re [] [] (fun _ caps => some caps)
  | c :: cs' =>
    match mSeq re (c :: cs') [] (fun _ caps => some caps) with
    | some caps => some caps
    | none => scanCaps re cs'

/-- Locate the first match of an unanchored pattern, returning the text
before the match and the text after it. -/
def scanSplit (re : List RItem) : List Char → Option (List Char × List Char)
  | [] =>
    match mSeq re [] [] (fun rest (_ : Caps) => some rest) with
    | some rest => some ([], rest)
    | none => none
  | c :: cs' =>
    match mSeq re (c :: cs') [] (fun rest (_ : Caps) => some rest) with
    | some rest => some ([], rest)
    | none => (scanSplit re cs').map (fun pr => (c :: pr.1, pr.2))

/-- String.prototype.replace with a non-global pattern and a constant
replacement: rewrite the first match, or return the string unchanged
when the pattern matches nowhere. -/
def jsReplaceFirst (re : List RItem) (repl : List Char) (s : String) : String :=
  match scanSplit re s.toList with
  | some (pre, post) => String.mk (pre ++ repl ++ post)
  | none => s

end JsRegex

namespace UserProfileModule

open JsRegex

/-- The sub-pattern [^\d]*\s+[0-9]+ that the certification date regular
expression uses for both the issued date and the expiration date. -/
def dateChunk : List RItem := [.star notDigitP, .plus wsP, .plus digitP]

/-- The pattern of user-profile-module.ts line 281:
issued\s*([^\d]*\s+[0-9]+)\s*(no)? expiration date\s*([^\d]*\s+[0-9]+)?
with the i flag.  Group 1 is the issued date, group 2 the optional
literal no, group 3 the optional expiration date. -/
def certDatesRegex : List RItem :=
  [ .lit true "issued".toList,
    .star wsP,
    .group 1 dateChunk,
    .star wsP,
    .opt [.group 2 [.lit true "no".toList]],
    .lit true " expiration date".toList,
    .star wsP,
    .opt [.group 3 dateChunk] ]

/-- The certification dates parsing of lines 280-295: match the dates
text against certDatesRegex; on no match leave both fields empty;
otherwise issued is capture 1, and expiration is capture 3 when capture
2 (the literal no) participated, the string N/A when capture 2
participated without capture 3, and N/A when capture 2 did not
participate (matchResult[2] is falsy). -/
def parseCertDates (dates : String) : String × String :=
  match scanCaps certDatesRegex dates.toList with
  | none => ("", "")
  | some caps =>
    let issued := String.mk ((caps.lookup 1).getD [])
    let expiration :=
      match caps.lookup 2 with
      | some _ =>
        match caps.lookup 3 with
        | some g3 => String.mk g3
        | none => "N/A"
      | none => "N/A"
    (issued, expiration)

/-- The pattern \s*credential\s+id\s* with the i flag, used on line 304
to strip the credential id label. -/
def credentialIdLabelRegex : List RItem :=
  [ .star wsP,
    .lit true "credential".toList,
    .plus wsP,
    .lit true "id".toList,
    .star wsP ]

/-- The endorser username rewrite of lines 401-407: the href attribute
value rewritten with String.prototype.replace by the anchored pattern
that reads, spelled out, caret /in/ ([^/]+) / dollar, with the first
capture as the replacement.  Because the pattern is anchored at both
ends, it matches exactly when the whole string is /in/ followed by a
non-empty segment free of slashes, followed by a final slash; replacing
the whole match by the first capture then yields the segment, and a
string the pattern does not match is returned unchanged. -/
def extractUsernameCh (cs : List Char) : List Char :=
  match cs with
  | '/' :: 'i' :: 'n' :: '/' :: rest =>
    let seg := rest.dropLast
    if rest.getLast? = some '/' ∧ seg ≠ [] ∧ '/' ∉ seg then seg else cs
  | _ => cs

/-- The endorser username rewrite on strings. -/
def extractUsername (href : String) : String :=
  String.mk (extractUsernameCh href.toList)

/-! ### The record types produced by extraction

The model files under src/modules/linked/src/models are not part of the
repository snapshot; the fields below are exactly the fields of the
object literals that user-profile-module.ts constructs.  The field end
of the interval records is a reserved word in Lean and is written with
guillemets. -/

structure Company where
  name : String
  linkedInURL : String
deriving DecidableEq, Repr

structure DateInterval where
  start : String
  «end» : String
deriving DecidableEq, Repr

structure Role where
  name : String
  location : String
  description : String
  duration : String
  timeInterval : DateInterval
  contractType : String
deriving DecidableEq, Repr

structure Experience where
  company : Company
  roles : List Role
  location : String
  totalDuration : String
deriving DecidableEq, Repr

/-- The education date interval: integer years, with none modelling the
JavaScript NaN that parseInt yields on a digit-free token. -/
structure EduDate where
  start : Option Int
  «end» : Option Int
deriving DecidableEq, Repr

structure School where
  name : String
  url : String
deriving DecidableEq, Repr

structure Education where
  school : School
  fieldOfStudy : String
  degree : String
  description : String
  activitiesAndSocieties : String
  date : EduDate
deriving DecidableEq, Repr

structure Issuer where
  name : String
  linkedInURL : String
deriving DecidableEq, Repr

structure Credential where
  id : String
  url : String
deriving DecidableEq, Repr

structure Certification where
  name : String
  issuer : Issuer
  credential : Credential
  issued : String
  expiration : String
deriving DecidableEq, Repr

structure User where
  name : String
  username : String
deriving DecidableEq, Repr

/-- The skill record; the endorsement count is parseInt of the scraped
text, with none modelling NaN. -/
structure Skill where
  endorsements : List User
  name : String
  hasLinkedInAssesmentBadge : Bool
  numberOfEndorsements : Option Int
deriving DecidableEq, Repr

/-- A non-null assertion or an undefined dereference: some value passes
through, none raises TypeError, matching the runtime behavior of the
pervasive postfix bang of the source. -/
def orCrash : Option α → Except JsError α
  | some a => .ok a
  | none => .error .typeError

/-! ### Education extraction (lines 172-231) -/

/-- The seven texts the education extractor reads per list item, each
through a safe reader that yields the empty string on absence. -/
structure EducationItemTexts where
  schoolName : String
  schoolURL : String
  dateText : String
  fieldOfStudy : String
  degree : String
  description : String
  activitiesAndSocieties : String
deriving DecidableEq, Repr

/-- The per-item education record construction of lines 210-225: the
date text is dash-split; start is parseInt of part 0, with the literal
string -1 substituted when part 0 is missing; end is parseInt of part 1
when more than one part exists, else the same expression as start. -/
def educationEntry (t : EducationItemTexts) : Education :=
  let di := splitDashes t.dateText
  { school := { name := t.schoolName, url := t.schoolURL }
    fieldOfStudy := t.fieldOfStudy
    degree := t.degree
    description := t.description
    activitiesAndSocieties := t.activitiesAndSocieties
    date :=
      { start := jsParseInt ((di.get? 0).getD "-1")
        «end» :=
          match di with
          | _ :: d1 :: _ => jsParseInt d1
          | _ => jsParseInt ((di.get? 0).getD "-1") } }

/-- The surface results the education extractor consumes: the outcome of
scrollUntilElementAppears on the education section, the outcome of the
see-more click loop, and the texts of the enumerated list items. -/
structure EducationSurface where
  sectionAppears : Except JsError Unit
  seeMoreClicks : Except JsError Unit
  items : List EducationItemTexts

/-- education() of lines 172-231: the section wait is wrapped in a
try/catch whose catch arm returns the empty list whatever the error;
afterwards the see-more loop runs and each list item is read and built
independently. -/
def education (s : EducationSurface) : Except JsError (List Education) :=
  match s.sectionAppears with
  | .error _ => .ok []
  | .ok _ => do
    let _ ← s.seeMoreClicks
    .ok (s.items.map educationEntry)

/-! ### Certification extraction (lines 237-315) -/

/-- The six values the certification extractor reads per item through
the safe readers. -/
structure CertificationItemTexts where
  companyUrl : String
  companyName : String
  certificateName : String
  dates : String
  credentialId : String
  credentialURL : String
deriving DecidableEq, Repr

/-- The per-item certification record construction of lines 275-311,
with the dates text parsed by parseCertDates and the credential id label
stripped by the case-insensitive replace of line 304. -/
def certificationEntry (t : CertificationItemTexts) : Certification :=
  let parsedDate := parseCertDates t.dates
  { name := jsTrim t.certificateName
    issuer := { name := jsTrim t.companyName, linkedInURL := jsTrim t.companyUrl }
    credential :=
      { id := jsTrim (jsReplaceFirst credentialIdLabelRegex [] t.credentialId)
        url := jsTrim t.credentialURL }
    issued := parsedDate.1
    expiration := parsedDate.2 }

/-- The surface results the certification extractor consumes. -/
structure CertificationsSurface where
  sectionAppears : Except JsError Unit
  seeMoreClicks : Except JsError Unit
  items : List CertificationItemTexts

/-- certifications() of lines 237-315: the section wait is wrapped in a
try/catch that returns the empty list on any error; then the see-more
loop and a fixed five-second pause run, and each item is built. -/
def certifications (s : CertificationsSurface) : Except JsError (List Certification) :=
  match s.sectionAppears with
  | .error _ => .ok []
  | .ok _ => do
    let _ ← s.seeMoreClicks
    .ok (s.items.map certificationEntry)

/-! ### Experience extraction (lines 135-166 and 424-542) -/

/-- The values read for one role sub-item of a multi-role block.  The
role name and the role info texts come from textContent calls that can
yield null, and the role name element itself can be absent; both cases
are none.  The contract type comes from the safe reader and the
description from the filtered safe reader. -/
structure RoleElemData where
  roleName : Option String
  roleInfo : List (Option String)
  contractType : String
  description : Option String
deriving DecidableEq, Repr

/-- The per-role construction of lines 432-472.  The role location is
the text of role info index 2 when more than two info elements exist,
else the empty string; the time interval is the dash split of the text
of role info index 0; the duration is the text of role info index 1.
Indices 0 and 1 are dereferenced with non-null assertions, so fewer than
two info elements raise TypeError. -/
def buildRole (r : RoleElemData) : Except JsError Role := do
  let roleLocation : Option String :=
    if h : 2 < r.roleInfo.length then r.roleInfo.get ⟨2, h⟩ else some ""
  let ri0 ← orCrash (r.roleInfo.get? 0)
  let ti := splitDashes (ri0.getD "")
  let ri1 ← orCrash (r.roleInfo.get? 1)
  .ok
    { name := r.roleName.getD ""
      location := roleLocation.getD ""
      description := r.description.getD ""
      duration := jsTrim (ri1.getD "")
      timeInterval :=
        { start := jsTrim ((ti.get? 0).getD "")
          «end» := jsTrim (((if ti.length ≠ 2 then ti.get? 0 else ti.get? 1)).getD "") }
      contractType := r.contractType }

/-- getExperiencesWithMultipleRoles of lines 424-486: the company level
title and subtitle are read once, every role sub-item is built, and the
block location is left empty. -/
def getExperiencesWithMultipleRoles (groupTitle groupSubTitle : String)
    (roleElements : List RoleElemData) (companyInternalURL : String) :
    Except JsError Experience :=
  (roleElements.mapM buildRole).map fun roles =>
    { company := { linkedInURL := companyInternalURL, name := groupTitle }
      roles := roles
      location := ""
      totalDuration := groupSubTitle }

/-- The six summary texts the single-role path reads through the safe
readers. -/
structure SingleRoleTexts where
  companyName : String
  timeInterval : String
  location : String
  duration : String
  description : String
  roleName : String
deriving DecidableEq, Repr

/-- getExperienceWithSingleRole of lines 494-542: the company name text
is split on line breaks, empty lines dropped and each line trimmed; the
first line is the company name and the second, when present, the
contract type; the time interval text is dash-split, with part 0 as
start and part 1 as end when exactly two parts exist, else part 0 again.
The first line and part 0 are dereferenced with non-null assertions, so
a company text with no non-empty line, or an interval text with no
non-empty part, raises TypeError. -/
def getExperienceWithSingleRole (t : SingleRoleTexts) (companyURL : String) :
    Except JsError Experience := do
  let parsedCompanyName := ((splitCh '\n' t.companyName.toList).filter (· ≠ [])).map
    (fun l => String.mk (trimCh l))
  let contractType := (parsedCompanyName.get? 1).getD ""
  let splittedTimeInterval := splitDashes t.timeInterval
  let start0 ← orCrash (splittedTimeInterval.get? 0)
  let endTok ← orCrash
    (if splittedTimeInterval.length = 2 then splittedTimeInterval.get? 1
     else splittedTimeInterval.get? 0)
  let companyName0 ← orCrash (parsedCompanyName.get? 0)
  .ok
    { company := { name := companyName0, linkedInURL := companyURL }
      location := t.location
      roles :=
        [ { description := t.description
            duration := t.duration
            location := t.location
            name := t.roleName
            timeInterval := { start := jsTrim start0, «end» := jsTrim endTok }
            contractType := contractType } ]
      totalDuration := t.duration }

/-- The values one company block of the experience section delivers: the
company link attribute, the role sub-item elements, the outcome of the
expand-roles click loop, the company level texts of the multi-role path
and the summary texts of the single-role path. -/
structure ExperienceItemData where
  companyURL : String
  roleElements : List RoleElemData
  expandRoles : Except JsError Unit
  groupTitle : String
  groupSubTitle : String
  single : SingleRoleTexts
deriving Repr

/-- The per-block branch of lines 147-163: after the expand-roles click
loop, a block with at least one role sub-item takes the multi-role path
and a block with zero role sub-items takes the single-role path. -/
def extractExperienceItem (it : ExperienceItemData) : Except JsError Experience := do
  let _ ← it.expandRoles
  if it.roleElements.length ≠ 0 then
    getExperiencesWithMultipleRoles it.groupTitle it.groupSubTitle
      it.roleElements it.companyURL
  else
    getExperienceWithSingleRole it.single it.companyURL

/-- The surface results the experience extractor consumes. -/
structure ExperiencesSurface where
  sectionAppears : Except JsError Unit
  moreClicks : Except JsError Unit
  items : List ExperienceItemData

/-- experiences() of lines 135-166: the section wait is wrapped in a
try/catch that returns the empty list on any error; then the see-more
loop runs and every company block is processed. -/
def experiences (s : ExperiencesSurface) : Except JsError (List Experience) :=
  match s.sectionAppears with
  | .error _ => .ok []
  | .ok _ => do
    let _ ← s.moreClicks
    s.items.mapM extractExperienceItem

/-! ### Skill and endorsement extraction (lines 322-414) -/

/-- The two values read per endorser node in the popup list. -/
structure EndorserData where
  name : String
  href : String
deriving DecidableEq, Repr

/-- The surface results one endorsement sub-crawl consumes: the outcome
of clicking the detail link, of the popup wait, the optional popup
container handle, the outcome of the list-container wait inside it, the
value of the scroll-completion probe at its successive checks, the
endorser nodes, and the outcome of the best-effort close click. -/
structure EndorseSurface where
  clickOutcome : Except JsError Unit
  waitPopup : Except JsError Unit
  popupContainer : Option Unit
  listContainer : Except JsError Unit
  scrolled : Nat → Bool
  endorsers : List EndorserData
  closeOutcome : Except JsError Unit

/-- The scroll-drain while loop of lines 385-391: re-check the
completion probe after each scroll and delay.  The source loop has no
iteration bound; the fuel argument makes the embedding total, and fuel
exhaustion stands for a drain that never completes. -/
def scrollDrain (scrolled : Nat → Bool) (i : Nat) : Nat → Except JsError Unit
  | 0 => if scrolled i then .ok () else .error (.fatal "scroll drain never completes")
  | fuel + 1 => if scrolled i then .ok () else scrollDrain scrolled (i + 1) fuel

/-- getEndorsementsFromPopup of lines 375-414.  The optional-chained
click is skipped when the element is null; the popup wait runs
unconditionally and is not wrapped in any try/catch, so its errors
propagate; when the popup container query yields null the list-container
wait is skipped by optional chaining and the later non-null assertion
hands an undefined handle to the scroll helper; after the drain the
endorser nodes are read and the close control clicked. -/
def getEndorsementsFromPopup (s : EndorseSurface) (element : Option Unit)
    (fuel : Nat) : Except JsError (List User) := do
  let _ ← match element with
    | some _ => s.clickOutcome
    | none => .ok ()
  let _ ← s.waitPopup
  let listContainer : Option Unit ←
    match s.popupContainer with
    | none => .ok none
    | some _ => s.listContainer.map some
  match listContainer with
  | none => .error .typeError
  | some _ => do
    let _ ← scrollDrain s.scrolled 0 fuel
    let users := s.endorsers.map fun e =>
      { name := e.name, username := extractUsername e.href : User }
    let _ ← s.closeOutcome
    .ok users

/-- The values one skill item delivers: the three safe reads, the
optional detail-link element, and the surface of its endorsement
sub-crawl. -/
structure SkillItemData where
  skillName : String
  hasBadge : Bool
  endorsementsCountText : String
  detailsLink : Option Unit
  endorse : EndorseSurface

/-- The surface results the skills extractor consumes. -/
structure SkillsSurface where
  sectionAppears : Except JsError Unit
  seeMoreClicks : Except JsError Unit
  items : List SkillItemData

/-- skills() of lines 322-368: the section wait is wrapped in a
try/catch that returns the empty list on any error; the see-more loop
and a fixed pause run; then each skill item is read in order, and in
detailed mode the endorsement sub-crawl runs per item with no
surrounding try/catch. -/
def skills (s : SkillsSurface) (detailed : Bool) (fuel : Nat) :
    Except JsError (List Skill) :=
  match s.sectionAppears with
  | .error _ => .ok []
  | .ok _ => do
    let _ ← s.seeMoreClicks
    s.items.mapM fun it => do
      let endorsers ←
        if detailed then getEndorsementsFromPopup it.endorse it.detailsLink fuel
        else .ok []
      .ok
        { endorsements := endorsers
          name := jsTrim it.skillName
          hasLinkedInAssesmentBadge := it.hasBadge
          numberOfEndorsements := jsParseInt it.endorsementsCountText : Skill }

/-! ### Identity accessors (lines 44-129) -/

/-- lastIndexOf on strings: the greatest start index at which the needle
occurs in the haystack, or minus one when it occurs nowhere; the empty
needle occurs at the haystack length. -/
def jsLastIndexOf (hay needle : String) : Int :=
  match ((List.range (hay.toList.length + 1)).filter
      (fun i => needle.toList.isPrefixOf (hay.toList.drop i))).getLast? with
  | some i => (i : Int)
  | none => -1

/-- String.prototype.substring with two arguments: clamp both to the
string bounds, swap when reversed, and take the slice between them. -/
def jsSubstring (s : String) (a b : Int) : String :=
  let n := s.toList.length
  let clamp : Int → Nat := fun i => if i < 0 then 0 else min i.toNat n
  let x := clamp a
  let y := clamp b
  String.mk ((s.toList.take (max x y)).drop (min x y))

/-- String.prototype.substring with one argument. -/
def jsSubstringFrom (s : String) (a : Int) : String :=
  jsSubstring s a (s.toList.length : Int)

/-- The text assembly of line 94: cut the last occurrence of the
to-delete text out of the info text and trim the result. -/
def computeAbout (ri idText : String) : String :=
  let idx := jsLastIndexOf ri idText
  jsTrim (jsSubstring ri 0 idx ++ jsSubstringFrom ri (idx + (idText.toList.length : Int)))

/-- The two reads about() performs; either can reject with a timeout or
a surface-fatal error. -/
structure AboutSurface where
  info : Except JsError String
  infoTextToDelete : Except JsError String

/-- about() of lines 86-101: the two reads and the assembly run inside a
try/catch whose catch arm returns the empty string for a TimeoutError
and rethrows every other error. -/
def about (s : AboutSurface) : Except JsError String :=
  match (do
      let ri ← s.info
      let idText ← s.infoTextToDelete
      pure (computeAbout ri idText) : Except JsError String) with
  | .ok v => .ok v
  | .error .timeout => .ok ""
  | .error e => .error e

/-- isPremium() of lines 107-115: init runs outside any try/catch; the
badge wait runs in a try/catch whose catch arm returns false for every
error, timeout or not. -/
def isPremium (initOutcome : Except JsError Unit)
    (badgeWait : Except JsError Unit) : Except JsError Bool := do
  let _ ← initOutcome
  match badgeWait with
  | .ok _ => .ok true
  | .error _ => .ok false

/-- isInfluencer() of lines 121-129, identical in shape to isPremium. -/
def isInfluencer (initOutcome : Except JsError Unit)
    (badgeWait : Except JsError Unit) : Except JsError Bool := do
  let _ ← initOutcome
  match badgeWait with
  | .ok _ => .ok true
  | .error _ => .ok false

/-! ### Navigation (lines 44-51) -/

/-- The characters encodeURI leaves unescaped: the unreserved and
reserved URI characters together with the hash sign. -/
def encodeURIAllowed (c : Char) : Bool :=
  c.isAlphanum ||
    [';', ',', '/', '?', ':', '@', '&', '=', '+', '$', '-', '_', '.', '!', '~',
      '*', Char.ofNat 39, '(', ')', '#'].contains c

/-- The UTF-8 bytes of a character, for the percent escapes of
encodeURI. -/
def utf8Bytes (c : Char) : List Nat :=
  let n := c.toNat
  if n < 128 then [n]
  else if n < 2048 then [192 + n / 64, 128 + n % 64]
  else if n < 65536 then [224 + n / 4096, 128 + (n / 64) % 64, 128 + n % 64]
  else [240 + n / 262144, 128 + (n / 4096) % 64, 128 + (n / 64) % 64, 128 + n % 64]

/-- An uppercase hexadecimal digit. -/
def hexDigit (n : Nat) : Char :=
  if n < 10 then Char.ofNat (48 + n) else Char.ofNat (55 + n)

/-- encodeURI: leave the allowed characters and percent-encode the
UTF-8 bytes of every other character. -/
def encodeURI (s : String) : String :=
  String.mk
    ((s.toList.map fun c =>
        if encodeURIAllowed c then [c]
        else (utf8Bytes c).map (fun b => ['%', hexDigit (b / 16), hexDigit (b % 16)]) |>.flatten).flatten)

/-- The profile URL of line 45. -/
def profileURL (id : String) : String :=
  encodeURI ("https://www.linkedin.com/in/" ++ id ++ "/")

/-- The page as the navigation logic observes it: the current URL and,
for counting, the number of navigations performed so far.  goto is
modelled as landing on the requested URL. -/
structure PageState where
  url : String
  navCount : Nat
deriving DecidableEq, Repr

/-- page.goto. -/
def goto (p : PageState) (u : String) : PageState :=
  { url := u, navCount := p.navCount + 1 }

/-- init() of lines 44-51: compute the encoded profile URL, return
without navigating when the page is already there, otherwise navigate. -/
def init (id : String) (p : PageState) : PageState :=
  let u := profileURL id
  if p.url = u then p else goto p u

/-! ### Lemmas about the character-list string operations -/

/-- Splitting a list free of the separator yields the list itself. -/
theorem splitCh_of_not_mem {sep : Char} : ∀ {l : List Char}, sep ∉ l → splitCh sep l = [l]
  | [], _ => rfl
  | c :: cs, h => by
    have hc : ¬c = sep := fun hcs => h (hcs ▸ List.mem_cons_self c cs)
    have ih := splitCh_of_not_mem (l := cs) (fun hm => h (List.mem_cons_of_mem c hm))
    simp [splitCh, hc, ih]

/-- Splitting at the first separator occurrence after a separator-free
prefix peels the prefix off. -/
theorem splitCh_append {sep : Char} :
    ∀ {a : List Char} (b : List Char), sep ∉ a →
      splitCh sep (a ++ sep :: b) = a :: splitCh sep b
  | [], b, _ => by simp [splitCh]
  | c :: cs, b, h => by
    have hc : ¬c = sep := fun hcs => h (hcs ▸ List.mem_cons_self c cs)
    have ih := splitCh_append (a := cs) b (fun hm => h (List.mem_cons_of_mem c hm))
    simp [splitCh, hc, ih]

/-- A trailing space does not change the trimmed value. -/
theorem trimCh_append_space (a : List Char) : trimCh (a ++ [' ']) = trimCh a := by
  have hws : wsP ' ' = true := by decide
  unfold trimCh
  rcases hd : a.dropWhile wsP with _ | ⟨c, rest⟩
  · have h1 : (a ++ [' ']).dropWhile wsP = [] := by
      rw [List.dropWhile_append, hd]
      simp [List.dropWhile_cons_of_pos hws]
    rw [h1]
  · have hne : (a.dropWhile wsP).isEmpty = false := by simp [hd]
    have h1 : (a ++ [' ']).dropWhile wsP = a.dropWhile wsP ++ [' '] := by
      rw [List.dropWhile_append, hne]
      simp
    rw [h1, List.reverse_append, hd]
    simp [List.dropWhile_cons_of_pos hws]

/-- A leading space does not change the trimmed value. -/
theorem trimCh_cons_space (b : List Char) : trimCh (' ' :: b) = trimCh b := by
  have hws : wsP ' ' = true := by decide
  unfold trimCh
  rw [List.dropWhile_cons_of_pos hws]

/-- The dash split of an interval written A dash B with spaces around
the dash, for dash-free A and B: the two parts, each non-empty because
it carries its space. -/
theorem splitDashes_interval (a b : List Char) (ha : '-' ∉ a) (hb : '-' ∉ b) :
    splitDashes (String.mk (a ++ ' ' :: '-' :: ' ' :: b)) =
      [String.mk (a ++ [' ']), String.mk (' ' :: b)] := by
  unfold splitDashes
  have hsp : '-' ∉ a ++ [' '] := by
    intro hm
    rcases List.mem_append.mp hm with h | h
    · exact ha h
    · simp at h
  have hb' : splitCh '-' (' ' :: b) = [' ' :: b] := by
    apply splitCh_of_not_mem
    intro hm
    rcases List.mem_cons.mp hm with h | h
    · exact absurd h.symm (by decide)
    · exact hb h
  have hshape : (String.mk (a ++ ' ' :: '-' :: ' ' :: b)).toList =
      (a ++ [' ']) ++ '-' :: (' ' :: b) := by simp
  rw [hshape, splitCh_append _ hsp, hb']
  have h1 : a ++ [' '] ≠ ([] : List Char) := by simp
  simp [List.filter, h1]

/-- The dash split of a dash-free non-empty text is that text alone. -/
theorem splitDashes_nodash (a : List Char) (hne : a ≠ []) (ha : '-' ∉ a) :
    splitDashes (String.mk a) = [String.mk a] := by
  unfold splitDashes
  have : (String.mk a).toList = a := rfl
  rw [this, splitCh_of_not_mem ha]
  simp [List.filter, hne]

/-! ### Claim C1 -/

/-- Claim C1, counterexample.  On the dates text
Issued Jan 2022 Expiration date Mar 2025 the pattern matches and its
third capture is the explicit expiration text Mar 2025, yet the
Certification expiration field is N/A, not the captured text: the third
capture is consulted only when the second capture (the literal no)
participated. -/
theorem C1_counterexample :
    (scanCaps certDatesRegex ("Issued Jan 2022 Expiration date Mar 2025").toList).bind
        (fun caps => caps.lookup 3) = some "Mar 2025".toList ∧
    (certificationEntry
        ⟨"", "", "", "Issued Jan 2022 Expiration date Mar 2025", "", ""⟩).expiration = "N/A" := by
  constructor
  · decide
  · decide

/-- Claim C1, amended.  For a certification dates text: when the
no-marker group and a trailing expiration month and year both matched,
expiration is that captured text; when the no marker matched without a
trailing date, expiration is N/A; when the no marker did not match,
expiration is N/A even if a trailing date was captured; when the pattern
does not match at all, both issued and expiration are empty.  In every
case a non-empty expiration different from N/A can only be the third
capture of a match in which the no group participated. -/
theorem C1_amended :
    (certificationEntry ⟨"", "", "", "Issued Jan 2022 No expiration date Mar 2025", "", ""⟩).issued
        = "Jan 2022" ∧
    (certificationEntry ⟨"", "", "", "Issued Jan 2022 No expiration date Mar 2025", "", ""⟩).expiration
        = "Mar 2025" ∧
    (certificationEntry ⟨"", "", "", "Issued Jan 2022 No expiration date", "", ""⟩).issued
        = "Jan 2022" ∧
    (certificationEntry ⟨"", "", "", "Issued Jan 2022 No expiration date", "", ""⟩).expiration
        = "N/A" ∧
    (certificationEntry ⟨"", "", "", "Issued Jan 2022 Expiration date Mar 2025", "", ""⟩).expiration
        = "N/A" ∧
    (certificationEntry ⟨"", "", "", "something unrelated", "", ""⟩).issued = "" ∧
    (certificationEntry ⟨"", "", "", "something unrelated", "", ""⟩).expiration = "" ∧
    (∀ dates : String,
      (parseCertDates dates).2 = "N/A" ∨ (parseCertDates dates).2 = "" ∨
      ∃ caps, scanCaps certDatesRegex dates.toList = some caps ∧
        (caps.lookup 2).isSome ∧ caps.lookup 3 = some (parseCertDates dates).2.toList) := by
  refine ⟨by decide, by decide, by decide, by decide, by decide, by decide, by decide, ?_⟩
  intro dates
  unfold parseCertDates
  rcases hm : scanCaps certDatesRegex dates.toList with _ | caps
  · right; left; rfl
  · rcases h2 : caps.lookup 2 with _ | g2
    · left; simp [h2]
    · rcases h3 : caps.lookup 3 with _ | g3
      · left; simp [h2, h3]
      · right; right
        exact ⟨caps, rfl, by simp [h2], by simp [h2, h3]⟩

/-! ### Claim C2 -/

/-- Claim C2, counterexample.  The education date text abc is
unparseable, yet the resulting date is NaN in both fields (modelled as
none), not minus one: the minus-one default applies only when the
dash split yields no part at all, while parseInt of a present digit-free
part yields NaN. -/
theorem C2_counterexample :
    (educationEntry ⟨"S", "u", "abc", "f", "d", "de", "a"⟩).date = ⟨none, none⟩ ∧
    (educationEntry ⟨"S", "u", "abc", "f", "d", "de", "a"⟩).date ≠ ⟨some (-1), some (-1)⟩ := by
  constructor
  · decide
  · decide

/-- Claim C2, amended.  The education date text is dash-split and each
part fed to parseInt: the text 2015 - 2019 yields start 2015 and end
2019, the single token 2020 yields 2020 twice; when the split yields no
part (for instance the empty text) the literal string minus one is
parsed instead, giving minus one in both fields; a present part without
digits yields NaN (none), not minus one. -/
theorem C2_amended :
    (educationEntry ⟨"S", "u", "2015 - 2019", "f", "d", "de", "a"⟩).date
        = ⟨some 2015, some 2019⟩ ∧
    (educationEntry ⟨"S", "u", "2020", "f", "d", "de", "a"⟩).date
        = ⟨some 2020, some 2020⟩ ∧
    (educationEntry ⟨"S", "u", "", "f", "d", "de", "a"⟩).date
        = ⟨some (-1), some (-1)⟩ ∧
    (educationEntry ⟨"S", "u", "abc", "f", "d", "de", "a"⟩).date = ⟨none, none⟩ ∧
    (∀ t : EducationItemTexts, splitDashes t.dateText = [] →
       (educationEntry t).date = ⟨some (-1), some (-1)⟩) := by
  refine ⟨by decide, by decide, by decide, by decide, ?_⟩
  intro t h
  unfold educationEntry
  simp only [h]
  decide

/-- Claim C2, witness for the amended universal clause: the empty date
text has an empty dash split and yields minus one twice. -/
theorem C2_witness :
    (educationEntry ⟨"S", "u", "", "f", "d", "de", "a"⟩).date = ⟨some (-1), some (-1)⟩ :=
  C2_amended.2.2.2.2 ⟨"S", "u", "", "f", "d", "de", "a"⟩ (by decide)

/-! ### Claim C3 -/

/-- When the popup wait rejects, getEndorsementsFromPopup rejects with
the same error, whether or not a detail link element was present. -/
theorem getEndorsements_popup_error (s : EndorseSurface) (element : Option Unit)
    (fuel : Nat) (e : JsError) (hw : s.waitPopup = .error e)
    (hc : element = none ∨ s.clickOutcome = .ok ()) :
    getEndorsementsFromPopup s element fuel = .error e := by
  rcases hc with rfl | hc
  · simp only [getEndorsementsFromPopup, hw]; rfl
  · rcases element with _ | el
    · simp only [getEndorsementsFromPopup, hw]; rfl
    · simp only [getEndorsementsFromPopup, hw, hc]; rfl

/-- Claim C3, counterexample.  With an absent detail-link element and a
popup that never appears, getEndorsementsFromPopup does not return an
empty endorser list: it still waits for the popup and the timeout
propagates; and the same timeout escapes skills(), aborting the whole
skills extraction instead of degrading to an empty sub-result. -/
theorem C3_counterexample :
    getEndorsementsFromPopup
        ⟨.ok (), .error .timeout, some (), .ok (), fun _ => true, [], .ok ()⟩ none 0
      = .error .timeout ∧
    skills
        ⟨.ok (), .ok (),
          [⟨"Java", false, "3", none,
            ⟨.ok (), .error .timeout, some (), .ok (), fun _ => true, [], .ok ()⟩⟩]⟩ true 0
      = .error .timeout := by
  constructor
  · rfl
  · rfl

/-- Claim C3, amended.  When the detail-link element is absent the click
is skipped, but the function still waits for the endorsers popup; a
failure of that wait is not caught anywhere: getEndorsementsFromPopup
rejects with the error of the wait, and in detailed mode skills()
propagates it, so the whole skills extraction fails rather than
degrading to an empty result for that sub-crawl. -/
theorem C3_amended :
    (∀ (s : EndorseSurface) (element : Option Unit) (fuel : Nat) (e : JsError),
        s.waitPopup = .error e → (element = none ∨ s.clickOutcome = .ok ()) →
        getEndorsementsFromPopup s element fuel = .error e) ∧
    (∀ (ss : SkillsSurface) (it : SkillItemData) (fuel : Nat) (e : JsError),
        ss.sectionAppears = .ok () → ss.seeMoreClicks = .ok () → ss.items = [it] →
        it.detailsLink = none → it.endorse.waitPopup = .error e →
        skills ss true fuel = .error e) := by
  constructor
  · exact getEndorsements_popup_error
  · intro ss it fuel e h1 h2 h3 h4 h5
    have hpop := getEndorsements_popup_error it.endorse it.detailsLink fuel e h5 (Or.inl h4)
    simp only [skills, h1, h2, h3, List.mapM, List.mapM.loop, hpop]
    rfl

/-- Claim C3, witness for the amended statement at a concrete surface. -/
theorem C3_witness :
    getEndorsementsFromPopup
        ⟨.ok (), .error (.fatal "popup never appeared"), some (), .ok (), fun _ => true, [], .ok ()⟩
        (some ()) 3
      = .error (.fatal "popup never appeared") ∧
    skills
        ⟨.ok (), .ok (),
          [⟨"Kotlin", true, "12", none,
            ⟨.ok (), .error (.fatal "popup never appeared"), some (), .ok (), fun _ => true, [],
              .ok ()⟩⟩]⟩ true 3
      = .error (.fatal "popup never appeared") :=
  ⟨C3_amended.1 _ (some ()) 3 _ rfl (Or.inr rfl),
   C3_amended.2 _ ⟨"Kotlin", true, "12", none,
      ⟨.ok (), .error (.fatal "popup never appeared"), some (), .ok (), fun _ => true, [],
        .ok ()⟩⟩ 3 _ rfl rfl rfl rfl rfl⟩

/-! ### Claim C7 -/

/-- Claim C7: each of the four section extractors returns the empty
collection when the bounded wait for its section element times out; the
timeout is swallowed by the try/catch around the wait, so the failure of
one section cannot prevent the others from being attempted. -/
theorem C7_theorem :
    (∀ s : ExperiencesSurface, s.sectionAppears = .error .timeout → experiences s = .ok []) ∧
    (∀ s : EducationSurface, s.sectionAppears = .error .timeout → education s = .ok []) ∧
    (∀ s : CertificationsSurface, s.sectionAppears = .error .timeout → certifications s = .ok []) ∧
    (∀ (s : SkillsSurface) (detailed : Bool) (fuel : Nat),
        s.sectionAppears = .error .timeout → skills s detailed fuel = .ok []) := by
  refine ⟨?_, ?_, ?_, ?_⟩
  · intro s h; simp [experiences, h]
  · intro s h; simp [education, h]
  · intro s h; simp [certifications, h]
  · intro s detailed fuel h; simp [skills, h]

/-- Claim C7, witness at concrete timed-out surfaces. -/
theorem C7_witness :
    experiences ⟨.error .timeout, .ok (), []⟩ = .ok [] ∧
    education ⟨.error .timeout, .ok (), []⟩ = .ok [] ∧
    certifications ⟨.error .timeout, .ok (), []⟩ = .ok [] ∧
    skills ⟨.error .timeout, .ok (), []⟩ true 0 = .ok [] :=
  ⟨C7_theorem.1 _ rfl, C7_theorem.2.1 _ rfl, C7_theorem.2.2.1 _ rfl,
   C7_theorem.2.2.2 _ true 0 rfl⟩

/-! ### Claim C8 -/

/-- Claim C8, counterexample.  A surface-fatal (non-timeout) error in
the premium badge wait does not propagate: the catch-all around the wait
converts it to false. -/
theorem C8_counterexample :
    isPremium (.ok ()) (.error (.fatal "detached context")) = .ok false := by
  rfl

/-- Claim C8, amended.  about() alone distinguishes errors: a timeout in
its reads becomes the empty string and any other error is rethrown; but
the badge probes and the section-existence waits catch every error, not
only timeouts, converting surface-fatal failures to false or to the
empty collection; errors raised outside those guarded waits, such as by
init() before the badge wait, do propagate. -/
theorem C8_amended :
    (∀ (s : AboutSurface) (msg : String),
        s.info = .error (.fatal msg) → about s = .error (.fatal msg)) ∧
    (∀ s : AboutSurface, s.info = .error .timeout → about s = .ok "") ∧
    (∀ e : JsError, isPremium (.ok ()) (.error e) = .ok false) ∧
    (∀ e : JsError, isInfluencer (.ok ()) (.error e) = .ok false) ∧
    (∀ (e : JsError) (b : Except JsError Unit), isPremium (.error e) b = .error e) ∧
    (∀ (s : ExperiencesSurface) (e : JsError),
        s.sectionAppears = .error e → experiences s = .ok []) ∧
    (∀ (s : EducationSurface) (e : JsError),
        s.sectionAppears = .error e → education s = .ok []) ∧
    (∀ (s : CertificationsSurface) (e : JsError),
        s.sectionAppears = .error e → certifications s = .ok []) ∧
    (∀ (s : SkillsSurface) (detailed : Bool) (fuel : Nat) (e : JsError),
        s.sectionAppears = .error e → skills s detailed fuel = .ok []) := by
  refine ⟨?_, ?_, ?_, ?_, ?_, ?_, ?_, ?_, ?_⟩
  · intro s msg h; simp only [about, h]; rfl
  · intro s h; simp only [about, h]; rfl
  · intro e; rfl
  · intro e; rfl
  · intro e b; rfl
  · intro s e h; simp [experiences, h]
  · intro s e h; simp [education, h]
  · intro s e h; simp [certifications, h]
  · intro s detailed fuel e h; simp [skills, h]

/-- Claim C8, witness at concrete surfaces. -/
theorem C8_witness :
    about ⟨.error (.fatal "navigation failed"), .ok "x"⟩ = .error (.fatal "navigation failed") ∧
    about ⟨.error .timeout, .ok "x"⟩ = .ok "" ∧
    isPremium (.ok ()) (.error (.fatal "page closed")) = .ok false ∧
    isInfluencer (.ok ()) (.error .timeout) = .ok false ∧
    isPremium (.error (.fatal "navigation failed")) (.ok ()) = .error (.fatal "navigation failed") ∧
    experiences ⟨.error (.fatal "page closed"), .ok (), []⟩ = .ok [] ∧
    education ⟨.error (.fatal "page closed"), .ok (), []⟩ = .ok [] ∧
    certifications ⟨.error (.fatal "page closed"), .ok (), []⟩ = .ok [] ∧
    skills ⟨.error (.fatal "page closed"), .ok (), []⟩ false 0 = .ok [] :=
  ⟨C8_amended.1 _ "navigation failed" rfl, C8_amended.2.1 _ rfl,
   C8_amended.2.2.1 _, C8_amended.2.2.2.1 _, C8_amended.2.2.2.2.1 _ _,
   C8_amended.2.2.2.2.2.1 _ _ rfl, C8_amended.2.2.2.2.2.2.1 _ _ rfl,
   C8_amended.2.2.2.2.2.2.2.1 _ _ rfl, C8_amended.2.2.2.2.2.2.2.2 _ false 0 _ rfl⟩

/-! ### Claim C4 -/

/-- jsTrim on a string built from a character list. -/
theorem jsTrim_mk (l : List Char) : jsTrim (String.mk l) = String.mk (trimCh l) := rfl

/-- buildRole on exactly two role-info elements, unconditionally. -/
theorem buildRole_two (rn : Option String) (ct : String) (d ri0 ri1 : Option String) :
    buildRole ⟨rn, [ri0, ri1], ct, d⟩ = .ok
      { name := rn.getD ""
        location := ""
        description := d.getD ""
        duration := jsTrim (ri1.getD "")
        timeInterval :=
          { start := jsTrim (((splitDashes (ri0.getD "")).get? 0).getD "")
            «end» := jsTrim
              (((if (splitDashes (ri0.getD "")).length ≠ 2 then (splitDashes (ri0.getD "")).get? 0
                 else (splitDashes (ri0.getD "")).get? 1)).getD "") }
        contractType := ct } := rfl

/-- Claim C4, counterexample.  The empty interval text contains no dash,
so the claim demands start and end equal to the trimmed whole text, the
empty string; but the single-role parser dereferences part 0 of the dash
split with a non-null assertion and the empty text has no non-empty
part, so the extraction raises TypeError and yields no interval at
all. -/
theorem C4_counterexample :
    getExperienceWithSingleRole ⟨"Acme Corp", "", "Paris", "2 yrs", "d", "r"⟩ "u"
      = .error .typeError := by
  rfl

/-- Claim C4, amended.  For interval texts of the form A dash B the
dash-split rule yields trimmed A and trimmed B in both the multi-role
and the single-role parser; for a non-empty text with no dash both
parsers yield the trimmed whole text twice; on the empty text the
multi-role parser yields two empty strings, while the single-role parser
raises TypeError (the counterexample) instead of yielding a value. -/
theorem C4_amended :
    (∀ a b : List Char, '-' ∉ a → '-' ∉ b →
      ∀ (rn : Option String) (ct : String) (d ri1 : Option String),
        ∃ role, buildRole ⟨rn, [some (String.mk (a ++ ' ' :: '-' :: ' ' :: b)), ri1], ct, d⟩
            = .ok role ∧
          role.timeInterval = ⟨String.mk (trimCh a), String.mk (trimCh b)⟩) ∧
    (∀ a : List Char, a ≠ [] → '-' ∉ a →
      ∀ (rn : Option String) (ct : String) (d ri1 : Option String),
        ∃ role, buildRole ⟨rn, [some (String.mk a), ri1], ct, d⟩ = .ok role ∧
          role.timeInterval = ⟨String.mk (trimCh a), String.mk (trimCh a)⟩) ∧
    (∀ a b : List Char, '-' ∉ a → '-' ∉ b →
      ∀ (t : SingleRoleTexts) (url : String),
        t.companyName = "Acme Corp" →
        t.timeInterval = String.mk (a ++ ' ' :: '-' :: ' ' :: b) →
        ∃ e, getExperienceWithSingleRole t url = .ok e ∧
          e.roles.map Role.timeInterval = [⟨String.mk (trimCh a), String.mk (trimCh b)⟩]) ∧
    (∀ a : List Char, a ≠ [] → '-' ∉ a →
      ∀ (t : SingleRoleTexts) (url : String),
        t.companyName = "Acme Corp" →
        t.timeInterval = String.mk a →
        ∃ e, getExperienceWithSingleRole t url = .ok e ∧
          e.roles.map Role.timeInterval = [⟨String.mk (trimCh a), String.mk (trimCh a)⟩]) ∧
    (∀ (rn : Option String) (ct : String) (d ri1 : Option String),
      ∃ role, buildRole ⟨rn, [some "", ri1], ct, d⟩ = .ok role ∧
        role.timeInterval = ⟨"", ""⟩) := by
  refine ⟨?_, ?_, ?_, ?_, ?_⟩
  · intro a b ha hb rn ct d ri1
    have h2 := buildRole_two rn ct d (some (String.mk (a ++ ' ' :: '-' :: ' ' :: b))) ri1
    simp only [Option.getD_some, splitDashes_interval a b ha hb] at h2
    simp only [List.get?, List.length_cons, List.length_nil] at h2
    norm_num at h2
    simp only [jsTrim_mk, trimCh_append_space, trimCh_cons_space] at h2
    exact ⟨_, h2, rfl⟩
  · intro a hne ha rn ct d ri1
    have h2 := buildRole_two rn ct d (some (String.mk a)) ri1
    simp only [Option.getD_some, splitDashes_nodash a hne ha] at h2
    simp only [List.get?, List.length_cons, List.length_nil] at h2
    norm_num at h2
    refine ⟨_, h2, ?_⟩
    simp only [jsTrim_mk]
  · intro a b ha hb t url hcn hti
    obtain ⟨cn, ti, loc, dur, desc, rn⟩ := t
    simp only at hcn hti
    subst hcn hti
    simp only [getExperienceWithSingleRole, splitDashes_interval a b ha hb]
    refine ⟨_, rfl, ?_⟩
    simp only [List.map, jsTrim_mk, trimCh_append_space, trimCh_cons_space]
  · intro a hne ha t url hcn hti
    obtain ⟨cn, ti, loc, dur, desc, rn⟩ := t
    simp only at hcn hti
    subst hcn hti
    simp only [getExperienceWithSingleRole, splitDashes_nodash a hne ha]
    refine ⟨_, rfl, ?_⟩
    simp only [List.map, jsTrim_mk]
  · intro rn ct d ri1
    exact ⟨_, buildRole_two rn ct d (some "") ri1, rfl⟩

/-- Claim C4, witness for the amended statement at concrete intervals. -/
theorem C4_witness :
    (∃ role, buildRole ⟨none, [some "A - B", some "2 yrs"], "", none⟩ = .ok role ∧
        role.timeInterval = ⟨"A", "B"⟩) ∧
    (∃ role, buildRole ⟨none, [some "X", some "2 yrs"], "", none⟩ = .ok role ∧
        role.timeInterval = ⟨"X", "X"⟩) ∧
    (∃ e, getExperienceWithSingleRole ⟨"Acme Corp", "A - B", "L", "D", "De", "R"⟩ "u"
          = .ok e ∧
        e.roles.map Role.timeInterval = [⟨"A", "B"⟩]) ∧
    (∃ e, getExperienceWithSingleRole ⟨"Acme Corp", "X", "L", "D", "De", "R"⟩ "u"
          = .ok e ∧
        e.roles.map Role.timeInterval = [⟨"X", "X"⟩]) ∧
    (∃ role, buildRole ⟨none, [some "", some "2 yrs"], "", none⟩ = .ok role ∧
        role.timeInterval = ⟨"", ""⟩) :=
  ⟨C4_amended.1 ['A'] ['B'] (by decide) (by decide) none "" none (some "2 yrs"),
   C4_amended.2.1 ['X'] (by decide) (by decide) none "" none (some "2 yrs"),
   C4_amended.2.2.1 ['A'] ['B'] (by decide) (by decide)
     ⟨"Acme Corp", "A - B", "L", "D", "De", "R"⟩ "u" rfl rfl,
   C4_amended.2.2.2.1 ['X'] (by decide) (by decide)
     ⟨"Acme Corp", "X", "L", "D", "De", "R"⟩ "u" rfl rfl,
   C4_amended.2.2.2.2 none "" none (some "2 yrs")⟩

/-! ### Claim C5 -/

/-- Claim C5: a company block with zero detected role sub-items takes
the single-role construction path; with summary text Acme Corp, a line
break, Full-time, and interval text Jan 2019 - Mar 2021, it yields one
Experience whose company name is the first non-empty trimmed line Acme
Corp, whose only role has the second line Full-time as contract type and
the dash-split interval Jan 2019 to Mar 2021. -/
theorem C5_theorem (it : ExperienceItemData)
    (hroles : it.roleElements = [])
    (hclick : it.expandRoles = .ok ())
    (hcn : it.single.companyName = "Acme Corp\nFull-time")
    (hti : it.single.timeInterval = "Jan 2019 - Mar 2021") :
    extractExperienceItem it = .ok
      { company := { name := "Acme Corp", linkedInURL := it.companyURL }
        roles := [ { name := it.single.roleName
                     location := it.single.location
                     description := it.single.description
                     duration := it.single.duration
                     timeInterval := { start := "Jan 2019", «end» := "Mar 2021" }
                     contractType := "Full-time" } ]
        location := it.single.location
        totalDuration := it.single.duration } := by
  obtain ⟨curl, re, ex, gt, gs, single⟩ := it
  obtain ⟨cn, ti, loc, dur, desc, rn⟩ := single
  simp only at hroles hclick hcn hti
  subst hroles hclick hcn hti
  rfl

/-- Claim C5, witness at a concrete company block. -/
theorem C5_witness :
    extractExperienceItem
        ⟨"https://corp", [], .ok (), "", "",
          ⟨"Acme Corp\nFull-time", "Jan 2019 - Mar 2021", "Paris", "2 yrs 3 mos", "d", "Engineer"⟩⟩
      = .ok
        { company := { name := "Acme Corp", linkedInURL := "https://corp" }
          roles := [ { name := "Engineer"
                       location := "Paris"
                       description := "d"
                       duration := "2 yrs 3 mos"
                       timeInterval := { start := "Jan 2019", «end» := "Mar 2021" }
                       contractType := "Full-time" } ]
          location := "Paris"
          totalDuration := "2 yrs 3 mos" } :=
  C5_theorem _ rfl rfl rfl rfl

/-! ### Claim C6 -/

/-- Claim C6: the endorser username comes from the profile URL by the
anchored pattern that extracts the segment between /in/ and a final
slash; the URL /in/jane-doe/ yields jane-doe, every URL of that shape
yields its segment, and every other URL is passed through unchanged
(each input is either unchanged or of the shape with the segment as
result). -/
theorem C6_theorem :
    extractUsername "/in/jane-doe/" = "jane-doe" ∧
    (∀ seg : List Char, seg ≠ [] → '/' ∉ seg →
        extractUsernameCh ('/' :: 'i' :: 'n' :: '/' :: (seg ++ ['/'])) = seg) ∧
    (∀ cs : List Char, extractUsernameCh cs = cs ∨
        ∃ seg, seg ≠ [] ∧ '/' ∉ seg ∧ cs = '/' :: 'i' :: 'n' :: '/' :: (seg ++ ['/']) ∧
          extractUsernameCh cs = seg) := by
  refine ⟨by decide, ?_, ?_⟩
  · intro seg hne hnm
    unfold extractUsernameCh
    simp [List.dropLast_concat, List.getLast?_concat, hne, hnm]
  · intro cs
    unfold extractUsernameCh
    split
    · next rest =>
      by_cases hcond : rest.getLast? = some '/' ∧ rest.dropLast ≠ [] ∧ '/' ∉ rest.dropLast
      · right
        obtain ⟨h1, h2, h3⟩ := hcond
        have hne : rest ≠ [] := by rintro rfl; simp at h1
        have hrest : rest.dropLast ++ ['/'] = rest := by
          have hl := List.dropLast_append_getLast hne
          have h1' := List.getLast?_eq_getLast_of_ne_nil hne
          rw [h1'] at h1
          have hlast : rest.getLast hne = '/' := Option.some_inj.mp h1
          rw [← hlast]
          exact hl
        refine ⟨rest.dropLast, h2, h3, by rw [hrest], ?_⟩
        rw [if_pos ⟨h1, h2, h3⟩]
      · left
        rw [if_neg hcond]
    · left
      rfl

/-- Claim C6, witness for the shape clause at a concrete segment. -/
theorem C6_witness :
    extractUsernameCh ('/' :: 'i' :: 'n' :: '/' :: (['j'] ++ ['/'])) = ['j'] :=
  C6_theorem.2.1 ['j'] (by decide) (by decide)

/-! ### Claim C9 -/

/-- Claim C9: in the multi-role path every role sub-item must yield at
least two role-info elements: with fewer than two the extraction raises
TypeError (the unconditional dereferences of indices 0 and 1) rather
than defaulting the fields; with two or more it succeeds, and only the
index-2 location element is guarded by a length check, the location
defaulting to the empty string when it is absent. -/
theorem C9_theorem (r : RoleElemData) :
    (r.roleInfo.length < 2 → buildRole r = .error .typeError) ∧
    (2 ≤ r.roleInfo.length → ∃ role, buildRole r = .ok role ∧
        role.location = ((r.roleInfo.get? 2).getD (some "")).getD "") := by
  obtain ⟨rn, ri, ct, d⟩ := r
  rcases ri with _ | ⟨x, _ | ⟨y, _ | ⟨z, rs⟩⟩⟩
  · exact ⟨fun _ => rfl, fun h2 => absurd h2 (by simp)⟩
  · exact ⟨fun _ => rfl, fun h2 => absurd h2 (by simp)⟩
  · exact ⟨fun hlt => absurd hlt (by simp), fun _ => ⟨_, rfl, rfl⟩⟩
  · refine ⟨fun hlt => absurd hlt (by simp), fun _ => ⟨_, rfl, ?_⟩⟩
    have h3 : (2 : Nat) < rs.length + 1 + 1 + 1 := by omega
    simp only [List.length_cons, dif_pos h3]
    rfl

/-- Claim C9, witness: one role-info element raises TypeError, two
succeed with an empty location, three succeed with the third text as
location. -/
theorem C9_witness :
    buildRole ⟨none, [some "Jan 2019 - Mar 2021"], "", none⟩ = .error .typeError ∧
    (∃ role, buildRole ⟨none, [some "Jan 2019 - Mar 2021", some "2 yrs"], "", none⟩
        = .ok role ∧ role.location = "") ∧
    (∃ role, buildRole
          ⟨none, [some "Jan 2019 - Mar 2021", some "2 yrs", some "Paris"], "", none⟩
        = .ok role ∧ role.location = "Paris") :=
  ⟨(C9_theorem ⟨none, [some "Jan 2019 - Mar 2021"], "", none⟩).1 (by decide),
   (C9_theorem ⟨none, [some "Jan 2019 - Mar 2021", some "2 yrs"], "", none⟩).2 (by decide),
   (C9_theorem ⟨none, [some "Jan 2019 - Mar 2021", some "2 yrs", some "Paris"], "", none⟩).2
     (by decide)⟩

/-! ### Claim C10 -/

/-- Claim C10: init() is idempotent with respect to navigation: after
one call the page is on the encoded profile URL, a second call changes
nothing (in particular it does not navigate again), one call performs at
most one navigation, and when the page is already on the profile URL the
call is a no-op. -/
theorem C10_theorem (id : String) (p : PageState) :
    (init id p).url = profileURL id ∧
    init id (init id p) = init id p ∧
    (init id p).navCount ≤ p.navCount + 1 ∧
    (p.url = profileURL id → init id p = p) := by
  unfold init goto
  by_cases h : p.url = profileURL id
  · simp [h, Nat.le_succ]
  · simp [h]

/-- Claim C10, witness: a page already on the profile URL is left
untouched. -/
theorem C10_witness :
    init "jane-doe" ⟨profileURL "jane-doe", 0⟩ = ⟨profileURL "jane-doe", 0⟩ :=
  ( C10_theorem "jane-doe" ⟨profileURL "jane-doe", 0⟩).2.2.2 rfl

end UserProfileModule
